import Mathlib

/-!
Shallow embedding of the seven plotting scripts under simulation/scripts
(alexa.py, bloom.py, evolution_bloom.py, hosts.py, hosts_evolution.py,
leaves.py, real.py).  Each script is modelled as a total function from its
command line (sys.argv, the script name included) and the content of the
file it reads to an outcome: the usage branch, an unhandled exception, or
a finished run carrying the plotted series and the written output path.
Numeric values are rationals; a pandas DataFrame is a list of named
columns; data.loc[:, name] is a fallible lookup raising KeyError.
-/

namespace Decenar

/-- A parsed CSV table as produced by pd.read_csv: named numeric columns. -/
structure Csv where
  cols : List (String × List ℚ)
deriving DecidableEq

/-- data.loc[:, name]: the column, or a KeyError when the name is absent. -/
def Csv.loc (c : Csv) (name : String) : Except String (List ℚ) :=
  match c.cols.lookup name with
  | some v => Except.ok v
  | none => Except.error ("KeyError: " ++ name)

/-- Element-wise sum of two pandas series over the same index. -/
def addS (a b : List ℚ) : List ℚ := List.zipWith (· + ·) a b

/-- Element-wise division of a pandas series by a scalar. -/
def divS (a : List ℚ) (k : ℚ) : List ℚ := a.map (fun x => x / k)

/-- Series.mean(): the sum divided by the length (claims only use it on
non-empty series, where this agrees with pandas). -/
def meanS (a : List ℚ) : ℚ := a.sum / (a.length : ℚ)

/-- The observable state of a finished run: how many input files were read,
the labelled series handed to the plotting calls, the (x, y) pairs of a
plotted curve, horizontal lines, the axis labels, the path passed to
plt.savefig (none when the script never saves), and whether plt.show ran. -/
structure FinalState where
  filesRead : Nat
  plotted : List (String × List ℚ)
  curve : List (ℚ × ℚ) := []
  hline : List ℚ := []
  xlabel : String
  ylabel : String
  savedTo : Option String
  shown : Bool
deriving DecidableEq

/-- The outcome of invoking a script.  sys.exit() with no argument
terminates the process with exit status 0, so the usage branch carries
that code. -/
inductive Outcome where
  | usage (msg : String) (exitCode : Nat)
  | exception (msg : String)
  | finished (st : FinalState)
deriving DecidableEq

/-- The usage string printed by every argv check. -/
def usageMsg (argv0 : String) : String := "Usage: " ++ argv0 ++ " csvFile"

/-- The report directory hard-coded into the savefig calls. -/
def imagesDir : String := "/home/yabasta/scuola/pdm/report/images/"

/-! ## alexa.py -/

/-- The final state of alexa.py on loaded data: sorted_data = np.sort(data),
yvals = np.arange(n)/float(n), plotted as a curve, saved to a hard-coded
absolute path. -/
def alexa_state (data : List ℚ) : FinalState :=
  let sorted_data := data.mergeSort
  let yvals := (List.range data.length).map (fun i : ℕ => (i : ℚ) / (data.length : ℚ))
  { filesRead := 1
    plotted := []
    curve := sorted_data.zip yvals
    xlabel := "Number of unique leaves"
    ylabel := "Cumulative probability"
    savedTo := some "/home/yabasta/scuola/pdm/report/images/leaves_cdf.pdf"
    shown := false }

/-- alexa.py: argv check, np.loadtxt of the single argument, CDF plot. -/
def alexa_py (argv : List String) (txt : Option (List ℚ)) : Outcome :=
  if argv.length ≠ 2 then Outcome.usage (usageMsg (argv.headD "")) 0
  else
    match txt with
    | none => Outcome.exception "OSError"
    | some data => Outcome.finished (alexa_state data)

/-! ## bloom.py -/

/-- The final state of bloom.py: no input is read, the hard-coded series is
plotted and saved.  The script has no argv check. -/
def bloom_state : FinalState :=
  { filesRead := 0
    plotted := [("Bloom filter size", [614, 1227, 2454, 4908, 9816, 19631])]
    xlabel := "Number of leaves"
    ylabel := "Bloom filter size"
    savedTo := some (imagesDir ++ "bloom.pdf")
    shown := false }

/-- bloom.py: straight-line module with no argument check and no file read. -/
def bloom_py (_argv : List String) : Outcome :=
  Outcome.finished bloom_state

/-- The shape shared verbatim by the five CSV scripts (their bodies are
near-copies): argv check printing the usage string and calling sys.exit()
(status 0), pd.read_csv of the single argument (FileNotFoundError when the
file is missing), the column loads (KeyError propagates), then the
plotting section and its output action. -/
def csvScript {α : Type} (series : Csv → Except String α) (state : α → FinalState)
    (argv : List String) (csv : Option Csv) : Outcome :=
  if argv.length ≠ 2 then Outcome.usage (usageMsg (argv.headD "")) 0
  else
    match csv with
    | none => Outcome.exception "FileNotFoundError"
    | some data =>
      match series data with
      | Except.error e => Outcome.exception e
      | Except.ok v => Outcome.finished (state v)

/-! ## hosts.py -/

/-- The column loads of hosts.py (lines 28-32). -/
def hosts_series (data : Csv) :
    Except String (List ℚ × List ℚ × List ℚ × List ℚ × List ℚ) := do
  let consensus ← data.loc "consensus_structured_wall_avg"
  let decrypt ← data.loc "decrypt_wall_avg"
  let reconstruct ← data.loc "reconstruct_wall_avg"
  let sign ← data.loc "sign_wall_avg"
  let complete ← data.loc "Complete round_wall_avg"
  pure (consensus, decrypt, reconstruct, sign, complete)

/-- The plotting section of hosts.py: four bar series, the complete-round
column as the Total line, savefig to the report directory. -/
def hosts_state (v : List ℚ × List ℚ × List ℚ × List ℚ × List ℚ) : FinalState :=
  { filesRead := 1
    plotted := [("Consensus structured", v.1), ("Decrypt", v.2.1),
                ("Reconstruct", v.2.2.1), ("Signature", v.2.2.2.1),
                ("Total", v.2.2.2.2)]
    xlabel := "Number of hosts"
    ylabel := "Time [s]"
    savedTo := some (imagesDir ++ "hosts.pdf")
    shown := false }

/-- hosts.py: argv check, pd.read_csv, column loads, bar chart, savefig. -/
def hosts_py : List String → Option Csv → Outcome :=
  csvScript hosts_series hosts_state

/-! ## hosts_evolution.py -/

/-- The column loads of hosts_evolution.py (lines 34-38). -/
def hosts_evolution_series (data : Csv) :
    Except String (List ℚ × List ℚ × List ℚ × List ℚ × List ℚ) := do
  let consensus ← data.loc "consensus_structured_wall_avg"
  let decrypt ← data.loc "decrypt_wall_avg"
  let reconstruct ← data.loc "reconstruct_wall_avg"
  let sign ← data.loc "sign_wall_avg"
  let complete ← data.loc "Complete round_wall_avg"
  pure (consensus, decrypt, reconstruct, sign, complete)

/-- The plotting section of hosts_evolution.py: four line series and the
Total line computed as consensus + decrypt + sign + consensus (line 58). -/
def hosts_evolution_state (v : List ℚ × List ℚ × List ℚ × List ℚ × List ℚ) :
    FinalState :=
  { filesRead := 1
    plotted := [("Consensus structured", v.1), ("Decrypt", v.2.1),
                ("Reconstruct", v.2.2.1), ("Signature", v.2.2.2.1),
                ("Total", addS (addS (addS v.1 v.2.1) v.2.2.2.1) v.1)]
    xlabel := "Number of hosts"
    ylabel := "Time [s]"
    savedTo := some (imagesDir ++ "hosts_evolution.pdf")
    shown := false }

/-- hosts_evolution.py: argv check, pd.read_csv, line chart, savefig. -/
def hosts_evolution_py : List String → Option Csv → Outcome :=
  csvScript hosts_evolution_series hosts_evolution_state

/-! ## leaves.py -/

/-- The column loads of leaves.py (lines 32-36); note the lower-case
complete_round_wall_avg. -/
def leaves_series (data : Csv) :
    Except String (List ℚ × List ℚ × List ℚ × List ℚ × List ℚ) := do
  let consensus ← data.loc "consensus_structured_wall_avg"
  let decrypt ← data.loc "decrypt_wall_avg"
  let reconstruct ← data.loc "reconstruct_wall_avg"
  let sign ← data.loc "sign_wall_avg"
  let complete ← data.loc "complete_round_wall_avg"
  pure (consensus, decrypt, reconstruct, sign, complete)

/-- The plotting section of leaves.py: four bars and the Total line
computed as consensus + decrypt + reconstruct + sign (line 54). -/
def leaves_state (v : List ℚ × List ℚ × List ℚ × List ℚ × List ℚ) : FinalState :=
  { filesRead := 1
    plotted := [("Consensus structured", v.1), ("Decrypt", v.2.1),
                ("Reconstruct", v.2.2.1), ("Signature", v.2.2.2.1),
                ("Total", addS (addS (addS v.1 v.2.1) v.2.2.1) v.2.2.2.1)]
    xlabel := "Number of leaves"
    ylabel := "Time [s]"
    savedTo := some (imagesDir ++ "leaves.pdf")
    shown := false }

/-- leaves.py: argv check, pd.read_csv, bar chart, savefig. -/
def leaves_py : List String → Option Csv → Outcome :=
  csvScript leaves_series leaves_state

/-! ## real.py -/

/-- The column loads of real.py (lines 23-28): every column is divided by
60, and there is an extra additional_data column. -/
def real_series (data : Csv) :
    Except String (List ℚ × List ℚ × List ℚ × List ℚ × List ℚ × List ℚ) := do
  let consensus := divS (← data.loc "consensus_structured_wall_avg") 60
  let decrypt := divS (← data.loc "decrypt_wall_avg") 60
  let reconstruct := divS (← data.loc "reconstruct_wall_avg") 60
  let sign := divS (← data.loc "sign_wall_avg") 60
  let additional := divS (← data.loc "additional_data_wall_avg") 60
  let complete := divS (← data.loc "Complete round_wall_avg") 60
  pure (consensus, decrypt, reconstruct, sign, additional, complete)

/-- The plotting section of real.py: five bars plus an axhline at the mean
of total = consensus + decrypt + reconstruct + sign + additional. -/
def real_state (v : List ℚ × List ℚ × List ℚ × List ℚ × List ℚ × List ℚ) :
    FinalState :=
  { filesRead := 1
    plotted := [("Consensus structured", v.1), ("Decrypt", v.2.1),
                ("Reconstruct", v.2.2.1), ("Signature", v.2.2.2.1),
                ("Additional", v.2.2.2.2.1)]
    hline := [meanS (addS (addS (addS (addS v.1 v.2.1) v.2.2.1) v.2.2.2.1)
                v.2.2.2.2.1)]
    xlabel := "Webpage ID"
    ylabel := "Time [m]"
    savedTo := some (imagesDir ++ "real.pdf")
    shown := false }

/-- real.py: argv check, pd.read_csv, bar chart with mean line, savefig. -/
def real_py : List String → Option Csv → Outcome :=
  csvScript real_series real_state

/-! ## evolution_bloom.py -/

/-- The column loads of evolution_bloom.py (lines 40-44): only the sign
column is divided by 60; the complete column is loaded but never plotted. -/
def evolution_bloom_series (data : Csv) :
    Except String (List ℚ × List ℚ × List ℚ × List ℚ × List ℚ) := do
  let consensus ← data.loc "consensus_structured_wall_avg"
  let decrypt ← data.loc "decrypt_wall_avg"
  let reconstruct ← data.loc "reconstruct_wall_avg"
  let sign := divS (← data.loc "sign_wall_avg") 60
  let complete ← data.loc "complete_round_wall_avg"
  pure (consensus, decrypt, reconstruct, sign, complete)

/-- The plotting section of evolution_bloom.py: four line series on the
host axis labelled Time[s], the hard-coded bloom-size series on the twin
axis, and plt.show() with no savefig. -/
def evolution_bloom_state (v : List ℚ × List ℚ × List ℚ × List ℚ × List ℚ) :
    FinalState :=
  { filesRead := 1
    plotted := [("Consensus structured", v.1), ("Decrypt", v.2.1),
                ("Reconstruct", v.2.2.1), ("Signature", v.2.2.2.1),
                ("Bloom filter size",
                  [10 * 614, 100 * 1227, 1000 * 2454, 10000 * 4908,
                   100000 * 9816, 1000000 * 19631])]
    xlabel := "Number of leaves"
    ylabel := "Time[s]"
    savedTo := none
    shown := true }

/-- evolution_bloom.py: argv check, pd.read_csv, twin-axis chart, plt.show. -/
def evolution_bloom_py : List String → Option Csv → Outcome :=
  csvScript evolution_bloom_series evolution_bloom_state

/-! ## The seven scripts as one list -/

/-- How a script obtains its data: pd.read_csv with named columns,
np.loadtxt with whitespace-separated numbers, or no input at all. -/
inductive InputKind where
  | csvNamed
  | whitespaceNums
  | noInput
deriving DecidableEq

/-- A script: its file name, how it reads input, and its behaviour as a
function of argv and of the two possible input contents (the CSV file and
the numeric text file; each script uses at most one of them). -/
structure Script where
  name : String
  input : InputKind
  run : List String → Option Csv → Option (List ℚ) → Outcome

def alexaS : Script :=
  ⟨"alexa.py", InputKind.whitespaceNums, fun argv _ t => alexa_py argv t⟩

def bloomS : Script :=
  ⟨"bloom.py", InputKind.noInput, fun argv _ _ => bloom_py argv⟩

def evolutionBloomS : Script :=
  ⟨"evolution_bloom.py", InputKind.csvNamed, fun argv c _ => evolution_bloom_py argv c⟩

def hostsS : Script :=
  ⟨"hosts.py", InputKind.csvNamed, fun argv c _ => hosts_py argv c⟩

def hostsEvolutionS : Script :=
  ⟨"hosts_evolution.py", InputKind.csvNamed, fun argv c _ => hosts_evolution_py argv c⟩

def leavesS : Script :=
  ⟨"leaves.py", InputKind.csvNamed, fun argv c _ => leaves_py argv c⟩

def realS : Script :=
  ⟨"real.py", InputKind.csvNamed, fun argv c _ => real_py argv c⟩

/-- The seven scripts of simulation/scripts. -/
def allScripts : List Script :=
  [alexaS, bloomS, evolutionBloomS, hostsS, hostsEvolutionS, leavesS, realS]

/-- The file written by a run, if any. -/
def writtenFile : Outcome → Option String
  | Outcome.finished st => st.savedTo
  | _ => none

/-- The curve of a finished run. -/
def curveOf : Outcome → List (ℚ × ℚ)
  | Outcome.finished st => st.curve
  | _ => []

/-- The series a finished run plotted under a given label. -/
def seriesOf (o : Outcome) (label : String) : Option (List ℚ) :=
  match o with
  | Outcome.finished st => st.plotted.lookup label
  | _ => none

/-- The element-wise sum of the four phase series a run plotted
individually (consensus, decrypt, reconstruct, sign). -/
def phaseSum (o : Outcome) : Option (List ℚ) :=
  match seriesOf o "Consensus structured", seriesOf o "Decrypt",
      seriesOf o "Reconstruct", seriesOf o "Signature" with
  | some a, some b, some c, some d => some (addS (addS (addS a b) c) d)
  | _, _, _, _ => none

/-! ## Basic lemmas about the embedding -/

lemma exceptBind_ok {ε α β : Type} (a : α) (f : α → Except ε β) :
    (Except.ok a >>= f) = f a := rfl

lemma exceptBind_error {ε α β : Type} (e : ε) (f : α → Except ε β) :
    ((Except.error e : Except ε α) >>= f) = Except.error e := rfl

lemma exceptPure {ε α : Type} (a : α) :
    (pure a : Except ε α) = Except.ok a := rfl

lemma exceptMap_ok {ε α β : Type} (f : α → β) (a : α) :
    (f <$> (Except.ok a : Except ε α)) = Except.ok (f a) := rfl

lemma exceptMap_error {ε α β : Type} (f : α → β) (e : ε) :
    (f <$> (Except.error e : Except ε α)) = Except.error e := rfl

lemma Csv.loc_none (c : Csv) (n : String) (h : c.cols.lookup n = none) :
    c.loc n = Except.error ("KeyError: " ++ n) := by
  simp [Csv.loc, h]

lemma Csv.loc_some (c : Csv) (n : String) (v : List ℚ)
    (h : c.cols.lookup n = some v) : c.loc n = Except.ok v := by
  simp [Csv.loc, h]

lemma Csv.loc_ok_lookup (c : Csv) (n : String) (v : List ℚ)
    (h : c.loc n = Except.ok v) : c.cols.lookup n = some v := by
  unfold Csv.loc at h
  cases hl : c.cols.lookup n with
  | none => rw [hl] at h; simp at h
  | some w => rw [hl] at h; simp at h; rw [h]

lemma csvScript_usage {α : Type} (series : Csv → Except String α)
    (state : α → FinalState) (argv : List String) (c : Option Csv)
    (h2 : ¬ argv.length = 2) :
    csvScript series state argv c = Outcome.usage (usageMsg (argv.headD "")) 0 := by
  simp [csvScript, h2]

lemma csvScript_noFile {α : Type} (series : Csv → Except String α)
    (state : α → FinalState) (argv : List String) (h2 : argv.length = 2) :
    csvScript series state argv none = Outcome.exception "FileNotFoundError" := by
  simp [csvScript, h2]

lemma csvScript_err {α : Type} (series : Csv → Except String α)
    (state : α → FinalState) (argv : List String) (h2 : argv.length = 2)
    (data : Csv) (e : String) (hv : series data = Except.error e) :
    csvScript series state argv (some data) = Outcome.exception e := by
  simp [csvScript, h2, hv]

lemma csvScript_ok {α : Type} (series : Csv → Except String α)
    (state : α → FinalState) (argv : List String) (h2 : argv.length = 2)
    (data : Csv) (v : α) (hv : series data = Except.ok v) :
    csvScript series state argv (some data) = Outcome.finished (state v) := by
  simp [csvScript, h2, hv]

/-- Inversion: a CSV script finishes only when the argument count is
right, the file parsed, and every column load succeeded; the final state
is then the script's plotting section applied to the loaded series. -/
lemma csvScript_finished {α : Type} (series : Csv → Except String α)
    (state : α → FinalState) (argv : List String) (c : Option Csv)
    (st : FinalState)
    (h : csvScript series state argv c = Outcome.finished st) :
    argv.length = 2 ∧ ∃ data v, c = some data ∧ series data = Except.ok v ∧
      st = state v := by
  by_cases h2 : argv.length = 2
  · refine ⟨h2, ?_⟩
    cases c with
    | none => rw [csvScript_noFile series state argv h2] at h; simp at h
    | some data =>
      cases hv : series data with
      | error e => rw [csvScript_err series state argv h2 data e hv] at h; simp at h
      | ok v =>
        rw [csvScript_ok series state argv h2 data v hv] at h
        simp only [Outcome.finished.injEq] at h
        exact ⟨data, v, rfl, hv, h.symm⟩
  · rw [csvScript_usage series state argv c h2] at h; simp at h

/-- Inversion for alexa.py. -/
lemma alexa_finished (argv : List String) (t : Option (List ℚ))
    (st : FinalState) (h : alexa_py argv t = Outcome.finished st) :
    argv.length = 2 ∧ ∃ d, t = some d ∧ st = alexa_state d := by
  by_cases h2 : argv.length = 2
  · refine ⟨h2, ?_⟩
    unfold alexa_py at h
    rw [if_neg (by simp [h2])] at h
    cases t with
    | none => simp at h
    | some d =>
      simp only [Outcome.finished.injEq] at h
      exact ⟨d, rfl, h.symm⟩
  · unfold alexa_py at h
    rw [if_pos (by simp [h2])] at h
    simp at h

lemma alexa_run_ok (argv : List String) (h2 : argv.length = 2) (d : List ℚ) :
    alexa_py argv (some d) = Outcome.finished (alexa_state d) := by
  simp [alexa_py, h2]

/-- bloom.py runs the same way whatever the invocation. -/
lemma bloom_run (argv : List String) : bloom_py argv = Outcome.finished bloom_state :=
  rfl

/-- Enumerating the membership of allScripts. -/
lemma mem_allScripts (s : Script) (hs : s ∈ allScripts) :
    s = alexaS ∨ s = bloomS ∨ s = evolutionBloomS ∨ s = hostsS ∨
      s = hostsEvolutionS ∨ s = leavesS ∨ s = realS := by
  simp only [allScripts, List.mem_cons, List.not_mem_nil, or_false] at hs
  exact hs

/-! ## C1: the argument-count check -/

/-- C1 is false as stated: bloom.py performs no argument-count check at
all; invoked with zero positional arguments it still produces its plot
instead of printing the usage message and exiting. -/
theorem C1_counterexample :
    ¬ (∀ s ∈ allScripts, ∀ (argv : List String) (c : Option Csv)
        (t : Option (List ℚ)), argv.length ≠ 2 →
        ∃ m k, s.run argv c t = Outcome.usage m k) := by
  intro h
  rcases h bloomS (by simp [allScripts]) ["bloom.py"] none none (by decide)
    with ⟨m, k, hk⟩
  rw [show bloomS.run ["bloom.py"] none none = Outcome.finished bloom_state
    from rfl] at hk
  simp at hk

/-- C1 (amended): every script except bloom.py checks the argument count:
invoked with anything other than exactly one positional argument it prints
the usage message to standard output and exits without doing any further
work; bloom.py has no such check. -/
theorem C1_amended (s : Script) (hs : s ∈ allScripts)
    (hname : s.name ≠ "bloom.py") (argv : List String) (c : Option Csv)
    (t : Option (List ℚ)) (h : argv.length ≠ 2) :
    s.run argv c t = Outcome.usage (usageMsg (argv.headD "")) 0 := by
  rcases mem_allScripts s hs with rfl | rfl | rfl | rfl | rfl | rfl | rfl
  · simp [alexaS, alexa_py, h]
  · exact absurd rfl hname
  · exact csvScript_usage evolution_bloom_series evolution_bloom_state argv c h
  · exact csvScript_usage hosts_series hosts_state argv c h
  · exact csvScript_usage hosts_evolution_series hosts_evolution_state argv c h
  · exact csvScript_usage leaves_series leaves_state argv c h
  · exact csvScript_usage real_series real_state argv c h

/-- Witness for C1_amended: alexa.py invoked with no argument. -/
theorem C1_witness :
    alexaS.run ["alexa.py"] none none =
      Outcome.usage (usageMsg (["alexa.py"].headD "")) 0 :=
  C1_amended alexaS (by simp [allScripts]) (by decide) ["alexa.py"] none none
    (by decide)

/-! ## C2: one input file read, one output file written -/

/-- C2 is false as stated: bloom.py, run with the correct argument count,
reads zero input files (its data is hard-coded). -/
theorem C2_counterexample :
    ¬ (∀ s ∈ allScripts, ∀ (argv : List String) (c : Option Csv)
        (t : Option (List ℚ)) (st : FinalState), argv.length = 2 →
        s.run argv c t = Outcome.finished st →
        st.filesRead = 1 ∧ st.savedTo.isSome = true) := by
  intro h
  have hb := h bloomS (by simp [allScripts]) ["bloom.py", "f"] none none
    bloom_state rfl rfl
  exact absurd hb.1 (by decide)

/-- C2 (amended): a correct-argument run that finishes reads at most one
input file and touches at most one output channel; every script except
bloom.py reads exactly one input file (bloom.py reads none), and every
script except evolution_bloom.py writes exactly one output file
(evolution_bloom.py writes none and displays interactively). -/
theorem C2_amended (s : Script) (hs : s ∈ allScripts) (argv : List String)
    (c : Option Csv) (t : Option (List ℚ)) (st : FinalState)
    (h2 : argv.length = 2) (hr : s.run argv c t = Outcome.finished st) :
    st.filesRead ≤ 1 ∧
    (s.name ≠ "bloom.py" → st.filesRead = 1) ∧
    (s.name = "bloom.py" → st.filesRead = 0) ∧
    (s.name ≠ "evolution_bloom.py" → ∃ p, st.savedTo = some p) ∧
    (s.name = "evolution_bloom.py" → st.savedTo = none ∧ st.shown = true) := by
  rcases mem_allScripts s hs with rfl | rfl | rfl | rfl | rfl | rfl | rfl
  · obtain ⟨-, d, -, rfl⟩ := alexa_finished argv t st hr
    exact ⟨by simp [alexa_state], fun _ => rfl, fun hh => absurd hh (by decide),
      fun _ => ⟨_, rfl⟩, fun hh => absurd hh (by decide)⟩
  · rw [show bloomS.run argv c t = Outcome.finished bloom_state from rfl] at hr
    simp only [Outcome.finished.injEq] at hr
    subst hr
    exact ⟨by decide, fun hh => absurd rfl hh, fun _ => rfl,
      fun _ => ⟨_, rfl⟩, fun hh => absurd hh (by decide)⟩
  · obtain ⟨-, data, v, -, -, rfl⟩ :=
      csvScript_finished evolution_bloom_series evolution_bloom_state argv c st hr
    exact ⟨by simp [evolution_bloom_state], fun _ => rfl,
      fun hh => absurd hh (by decide),
      fun hh => absurd rfl hh, fun _ => ⟨rfl, rfl⟩⟩
  · obtain ⟨-, data, v, -, -, rfl⟩ :=
      csvScript_finished hosts_series hosts_state argv c st hr
    exact ⟨by simp [hosts_state], fun _ => rfl, fun hh => absurd hh (by decide),
      fun _ => ⟨_, rfl⟩, fun hh => absurd hh (by decide)⟩
  · obtain ⟨-, data, v, -, -, rfl⟩ :=
      csvScript_finished hosts_evolution_series hosts_evolution_state argv c st hr
    exact ⟨by simp [hosts_evolution_state], fun _ => rfl,
      fun hh => absurd hh (by decide),
      fun _ => ⟨_, rfl⟩, fun hh => absurd hh (by decide)⟩
  · obtain ⟨-, data, v, -, -, rfl⟩ :=
      csvScript_finished leaves_series leaves_state argv c st hr
    exact ⟨by simp [leaves_state], fun _ => rfl, fun hh => absurd hh (by decide),
      fun _ => ⟨_, rfl⟩, fun hh => absurd hh (by decide)⟩
  · obtain ⟨-, data, v, -, -, rfl⟩ :=
      csvScript_finished real_series real_state argv c st hr
    exact ⟨by simp [real_state], fun _ => rfl, fun hh => absurd hh (by decide),
      fun _ => ⟨_, rfl⟩, fun hh => absurd hh (by decide)⟩

/-- Witness for C2_amended: hosts.py on a sample CSV. -/
def sampleCsv : Csv :=
  ⟨[("consensus_structured_wall_avg", [1]), ("decrypt_wall_avg", [2]),
    ("reconstruct_wall_avg", [3]), ("sign_wall_avg", [4]),
    ("additional_data_wall_avg", [5]), ("Complete round_wall_avg", [10]),
    ("complete_round_wall_avg", [11])]⟩

theorem C2_witness :
    (hosts_state ([1], [2], [3], [4], [10])).filesRead ≤ 1 ∧
    (hostsS.name ≠ "bloom.py" →
      (hosts_state ([1], [2], [3], [4], [10])).filesRead = 1) ∧
    (hostsS.name = "bloom.py" →
      (hosts_state ([1], [2], [3], [4], [10])).filesRead = 0) ∧
    (hostsS.name ≠ "evolution_bloom.py" →
      ∃ p, (hosts_state ([1], [2], [3], [4], [10])).savedTo = some p) ∧
    (hostsS.name = "evolution_bloom.py" →
      (hosts_state ([1], [2], [3], [4], [10])).savedTo = none ∧
      (hosts_state ([1], [2], [3], [4], [10])).shown = true) :=
  C2_amended hostsS (by simp [allScripts]) ["hosts.py", "f"] (some sampleCsv)
    none (hosts_state ([1], [2], [3], [4], [10])) rfl rfl

/-! ## C3: any other failure is an unhandled exception, no output written -/

/-- C3: with the correct argument count, a missing input file makes every
input-reading script raise an unhandled exception, a CSV with no matching
columns makes every CSV script raise an unhandled exception, and an
excepting run never writes an output file. -/
theorem C3_unhandled (s : Script) (hs : s ∈ allScripts) (argv : List String)
    (h2 : argv.length = 2) :
    (s.name ≠ "bloom.py" →
      ∃ e, s.run argv none none = Outcome.exception e) ∧
    (s.input = InputKind.csvNamed →
      ∃ e, s.run argv (some (Csv.mk [])) none = Outcome.exception e) ∧
    (∀ c t e, s.run argv c t = Outcome.exception e →
      writtenFile (s.run argv c t) = none) := by
  rcases mem_allScripts s hs with rfl | rfl | rfl | rfl | rfl | rfl | rfl
  · refine ⟨fun _ => ⟨"OSError", by simp [alexaS, alexa_py, h2]⟩,
      fun hi => absurd hi (by decide), fun c t e he => ?_⟩
    rw [he]; rfl
  · refine ⟨fun hh => absurd rfl hh, fun hi => absurd hi (by decide),
      fun c t e he => ?_⟩
    rw [he]; rfl
  · refine ⟨fun _ => ⟨"FileNotFoundError",
        csvScript_noFile evolution_bloom_series evolution_bloom_state argv h2⟩,
      fun _ => ⟨"KeyError: consensus_structured_wall_avg",
        csvScript_err evolution_bloom_series evolution_bloom_state argv h2 (Csv.mk []) _ rfl⟩,
      fun c t e he => ?_⟩
    rw [he]; rfl
  · refine ⟨fun _ => ⟨"FileNotFoundError",
        csvScript_noFile hosts_series hosts_state argv h2⟩,
      fun _ => ⟨"KeyError: consensus_structured_wall_avg",
        csvScript_err hosts_series hosts_state argv h2 (Csv.mk []) _ rfl⟩,
      fun c t e he => ?_⟩
    rw [he]; rfl
  · refine ⟨fun _ => ⟨"FileNotFoundError",
        csvScript_noFile hosts_evolution_series hosts_evolution_state argv h2⟩,
      fun _ => ⟨"KeyError: consensus_structured_wall_avg",
        csvScript_err hosts_evolution_series hosts_evolution_state argv h2 (Csv.mk []) _ rfl⟩,
      fun c t e he => ?_⟩
    rw [he]; rfl
  · refine ⟨fun _ => ⟨"FileNotFoundError",
        csvScript_noFile leaves_series leaves_state argv h2⟩,
      fun _ => ⟨"KeyError: consensus_structured_wall_avg",
        csvScript_err leaves_series leaves_state argv h2 (Csv.mk []) _ rfl⟩,
      fun c t e he => ?_⟩
    rw [he]; rfl
  · refine ⟨fun _ => ⟨"FileNotFoundError",
        csvScript_noFile real_series real_state argv h2⟩,
      fun _ => ⟨"KeyError: consensus_structured_wall_avg",
        csvScript_err real_series real_state argv h2 (Csv.mk []) _ rfl⟩,
      fun c t e he => ?_⟩
    rw [he]; rfl

/-- Witness for C3_unhandled: hosts.py with the right argument count. -/
theorem C3_witness :
    (hostsS.name ≠ "bloom.py" →
      ∃ e, hostsS.run ["hosts.py", "f"] none none = Outcome.exception e) ∧
    (hostsS.input = InputKind.csvNamed →
      ∃ e, hostsS.run ["hosts.py", "f"] (some (Csv.mk [])) none =
        Outcome.exception e) ∧
    (∀ c t e, hostsS.run ["hosts.py", "f"] c t = Outcome.exception e →
      writtenFile (hostsS.run ["hosts.py", "f"] c t) = none) :=
  C3_unhandled hostsS (by simp [allScripts]) ["hosts.py", "f"] rfl

/-! ## C9: the usage branch exits with status 0 -/

/-- C9: every CSV-reading script, invoked with the wrong argument count,
takes the usage branch, which calls sys.exit() with no argument and hence
terminates with exit status 0 — indistinguishable from success. -/
theorem C9_exit_zero (s : Script) (hs : s ∈ allScripts)
    (hcsv : s.input = InputKind.csvNamed) (argv : List String)
    (c : Option Csv) (t : Option (List ℚ)) (h : argv.length ≠ 2) :
    s.run argv c t = Outcome.usage (usageMsg (argv.headD "")) 0 := by
  rcases mem_allScripts s hs with rfl | rfl | rfl | rfl | rfl | rfl | rfl
  · exact absurd hcsv (by decide)
  · exact absurd hcsv (by decide)
  · exact csvScript_usage evolution_bloom_series evolution_bloom_state argv c h
  · exact csvScript_usage hosts_series hosts_state argv c h
  · exact csvScript_usage hosts_evolution_series hosts_evolution_state argv c h
  · exact csvScript_usage leaves_series leaves_state argv c h
  · exact csvScript_usage real_series real_state argv c h

/-- Witness for C9_exit_zero: hosts.py invoked with no argument. -/
theorem C9_witness :
    hostsS.run ["hosts.py"] none none =
      Outcome.usage (usageMsg (["hosts.py"].headD "")) 0 :=
  C9_exit_zero hostsS (by simp [allScripts]) rfl ["hosts.py"] none none
    (by decide)

/-! ## C4: one interactive script, six fixed PDF paths -/

/-- The output file hard-coded into each script (none for the script that
only calls plt.show). -/
def fixedOutput : String → Option String
  | "alexa.py" => some "/home/yabasta/scuola/pdm/report/images/leaves_cdf.pdf"
  | "bloom.py" => some (imagesDir ++ "bloom.pdf")
  | "evolution_bloom.py" => none
  | "hosts.py" => some (imagesDir ++ "hosts.pdf")
  | "hosts_evolution.py" => some (imagesDir ++ "hosts_evolution.pdf")
  | "leaves.py" => some (imagesDir ++ "leaves.pdf")
  | "real.py" => some (imagesDir ++ "real.pdf")
  | _ => none

/-- C4: of the seven scripts exactly one (evolution_bloom.py) displays its
chart interactively and saves nothing; every other script saves to a
hard-coded absolute .pdf path that does not depend on the invocation or on
the input. -/
theorem C4_fixed_outputs (s : Script) (hs : s ∈ allScripts)
    (argv : List String) (c : Option Csv) (t : Option (List ℚ))
    (st : FinalState) (hr : s.run argv c t = Outcome.finished st) :
    allScripts.length = 7 ∧
    (allScripts.filter (fun x => (fixedOutput x.name).isNone)).length = 1 ∧
    st.savedTo = fixedOutput s.name ∧
    (st.shown = true ↔ s.name = "evolution_bloom.py") ∧
    (s.name ≠ "evolution_bloom.py" →
      ∃ p, st.savedTo = some p ∧ p.data.head? = some '/' ∧
        p.data.reverse.take 4 = ['f', 'd', 'p', '.']) := by
  rcases mem_allScripts s hs with rfl | rfl | rfl | rfl | rfl | rfl | rfl
  · obtain ⟨-, d, -, rfl⟩ := alexa_finished argv t st hr
    exact ⟨rfl, rfl, rfl, iff_of_false (by simp [alexa_state]) (by decide),
      fun _ => ⟨_, rfl, by decide, by decide⟩⟩
  · rw [show bloomS.run argv c t = Outcome.finished bloom_state from rfl] at hr
    simp only [Outcome.finished.injEq] at hr
    subst hr
    exact ⟨rfl, rfl, rfl, iff_of_false (by simp [bloom_state]) (by decide),
      fun _ => ⟨_, rfl, by decide, by decide⟩⟩
  · obtain ⟨-, data, v, -, -, rfl⟩ :=
      csvScript_finished evolution_bloom_series evolution_bloom_state argv c st hr
    exact ⟨rfl, rfl, rfl, iff_of_true rfl rfl, fun hh => absurd rfl hh⟩
  · obtain ⟨-, data, v, -, -, rfl⟩ :=
      csvScript_finished hosts_series hosts_state argv c st hr
    exact ⟨rfl, rfl, rfl, iff_of_false (by simp [hosts_state]) (by decide),
      fun _ => ⟨_, rfl, by decide, by decide⟩⟩
  · obtain ⟨-, data, v, -, -, rfl⟩ :=
      csvScript_finished hosts_evolution_series hosts_evolution_state argv c st hr
    exact ⟨rfl, rfl, rfl,
      iff_of_false (by simp [hosts_evolution_state]) (by decide),
      fun _ => ⟨_, rfl, by decide, by decide⟩⟩
  · obtain ⟨-, data, v, -, -, rfl⟩ :=
      csvScript_finished leaves_series leaves_state argv c st hr
    exact ⟨rfl, rfl, rfl, iff_of_false (by simp [leaves_state]) (by decide),
      fun _ => ⟨_, rfl, by decide, by decide⟩⟩
  · obtain ⟨-, data, v, -, -, rfl⟩ :=
      csvScript_finished real_series real_state argv c st hr
    exact ⟨rfl, rfl, rfl, iff_of_false (by simp [real_state]) (by decide),
      fun _ => ⟨_, rfl, by decide, by decide⟩⟩

/-- Witness for C4_fixed_outputs: leaves.py on the sample CSV. -/
theorem C4_witness :
    allScripts.length = 7 ∧
    (allScripts.filter (fun x => (fixedOutput x.name).isNone)).length = 1 ∧
    (leaves_state ([1], [2], [3], [4], [11])).savedTo =
      fixedOutput leavesS.name ∧
    ((leaves_state ([1], [2], [3], [4], [11])).shown = true ↔
      leavesS.name = "evolution_bloom.py") ∧
    (leavesS.name ≠ "evolution_bloom.py" →
      ∃ p, (leaves_state ([1], [2], [3], [4], [11])).savedTo = some p ∧
        p.data.head? = some '/' ∧
        p.data.reverse.take 4 = ['f', 'd', 'p', '.']) :=
  C4_fixed_outputs leavesS (by simp [allScripts]) ["leaves.py", "f"]
    (some sampleCsv) none (leaves_state ([1], [2], [3], [4], [11])) rfl

/-! ## C5: input formats -/

/-- C5 is false as stated: bloom.py parses no input at all, so it is not
true that every script other than the whitespace one parses a CSV. -/
theorem C5_counterexample :
    ¬ ((allScripts.filter
          (fun x => decide (x.input = InputKind.whitespaceNums))).length = 1 ∧
       ∀ s ∈ allScripts, s.input ≠ InputKind.whitespaceNums →
         s.input = InputKind.csvNamed) := by
  intro h
  have hb := h.2 bloomS (by simp [allScripts]) (by decide)
  exact absurd hb (by decide)

/-- C5 (amended): exactly one script (alexa.py) parses whitespace-separated
numbers, exactly one (bloom.py) reads no input at all, and every remaining
script parses a CSV with hard-coded column names.  The classification is
grounded in behaviour: a CSV script raises on a missing CSV file, the
whitespace script raises on a missing text file, and the no-input script
ignores both inputs. -/
theorem C5_amended (s : Script) (hs : s ∈ allScripts) :
    (allScripts.filter
      (fun x => decide (x.input = InputKind.whitespaceNums))).length = 1 ∧
    (allScripts.filter
      (fun x => decide (x.input = InputKind.noInput))).length = 1 ∧
    (s.name ≠ "bloom.py" → s.input ≠ InputKind.whitespaceNums →
      s.input = InputKind.csvNamed) ∧
    (s.name = "bloom.py" → s.input = InputKind.noInput) ∧
    (s.input = InputKind.csvNamed → ∀ argv t, argv.length = 2 →
      s.run argv none t = Outcome.exception "FileNotFoundError") ∧
    (s.input = InputKind.whitespaceNums → ∀ argv c, argv.length = 2 →
      s.run argv c none = Outcome.exception "OSError") ∧
    (s.input = InputKind.noInput → ∀ argv c t c' t',
      s.run argv c t = s.run argv c' t') := by
  rcases mem_allScripts s hs with rfl | rfl | rfl | rfl | rfl | rfl | rfl
  · exact ⟨rfl, rfl, fun _ hw => absurd rfl hw, fun hh => absurd hh (by decide),
      fun hi => absurd hi (by decide),
      fun _ argv c h2 => by simp [alexaS, alexa_py, h2],
      fun hi => absurd hi (by decide)⟩
  · exact ⟨rfl, rfl, fun hh _ => absurd rfl hh, fun _ => rfl,
      fun hi => absurd hi (by decide), fun hi => absurd hi (by decide),
      fun _ argv c t c' t' => rfl⟩
  · exact ⟨rfl, rfl, fun _ _ => rfl, fun hh => absurd hh (by decide),
      fun _ argv t h2 =>
        csvScript_noFile evolution_bloom_series evolution_bloom_state argv h2,
      fun hi => absurd hi (by decide), fun hi => absurd hi (by decide)⟩
  · exact ⟨rfl, rfl, fun _ _ => rfl, fun hh => absurd hh (by decide),
      fun _ argv t h2 => csvScript_noFile hosts_series hosts_state argv h2,
      fun hi => absurd hi (by decide), fun hi => absurd hi (by decide)⟩
  · exact ⟨rfl, rfl, fun _ _ => rfl, fun hh => absurd hh (by decide),
      fun _ argv t h2 =>
        csvScript_noFile hosts_evolution_series hosts_evolution_state argv h2,
      fun hi => absurd hi (by decide), fun hi => absurd hi (by decide)⟩
  · exact ⟨rfl, rfl, fun _ _ => rfl, fun hh => absurd hh (by decide),
      fun _ argv t h2 => csvScript_noFile leaves_series leaves_state argv h2,
      fun hi => absurd hi (by decide), fun hi => absurd hi (by decide)⟩
  · exact ⟨rfl, rfl, fun _ _ => rfl, fun hh => absurd hh (by decide),
      fun _ argv t h2 => csvScript_noFile real_series real_state argv h2,
      fun hi => absurd hi (by decide), fun hi => absurd hi (by decide)⟩

/-- Witness for C5_amended: the classification at alexa.py. -/
theorem C5_witness :
    (allScripts.filter
      (fun x => decide (x.input = InputKind.whitespaceNums))).length = 1 ∧
    (allScripts.filter
      (fun x => decide (x.input = InputKind.noInput))).length = 1 ∧
    (alexaS.name ≠ "bloom.py" → alexaS.input ≠ InputKind.whitespaceNums →
      alexaS.input = InputKind.csvNamed) ∧
    (alexaS.name = "bloom.py" → alexaS.input = InputKind.noInput) ∧
    (alexaS.input = InputKind.csvNamed → ∀ argv t, argv.length = 2 →
      alexaS.run argv none t = Outcome.exception "FileNotFoundError") ∧
    (alexaS.input = InputKind.whitespaceNums → ∀ argv c, argv.length = 2 →
      alexaS.run argv c none = Outcome.exception "OSError") ∧
    (alexaS.input = InputKind.noInput → ∀ argv c t c' t',
      alexaS.run argv c t = alexaS.run argv c' t') :=
  C5_amended alexaS (by simp [allScripts])

/-! ## Evaluating the column loads -/

lemma hosts_series_eval (c : Csv) (a d r s k : List ℚ)
    (hc : c.cols.lookup "consensus_structured_wall_avg" = some a)
    (hd : c.cols.lookup "decrypt_wall_avg" = some d)
    (hr : c.cols.lookup "reconstruct_wall_avg" = some r)
    (hs : c.cols.lookup "sign_wall_avg" = some s)
    (hk : c.cols.lookup "Complete round_wall_avg" = some k) :
    hosts_series c = Except.ok (a, d, r, s, k) := by
  unfold hosts_series
  rw [Csv.loc_some c _ _ hc, Csv.loc_some c _ _ hd, Csv.loc_some c _ _ hr,
    Csv.loc_some c _ _ hs, Csv.loc_some c _ _ hk]
  simp only [exceptBind_ok, exceptMap_ok, exceptPure]

lemma hosts_evolution_series_eval (c : Csv) (a d r s k : List ℚ)
    (hc : c.cols.lookup "consensus_structured_wall_avg" = some a)
    (hd : c.cols.lookup "decrypt_wall_avg" = some d)
    (hr : c.cols.lookup "reconstruct_wall_avg" = some r)
    (hs : c.cols.lookup "sign_wall_avg" = some s)
    (hk : c.cols.lookup "Complete round_wall_avg" = some k) :
    hosts_evolution_series c = Except.ok (a, d, r, s, k) := by
  unfold hosts_evolution_series
  rw [Csv.loc_some c _ _ hc, Csv.loc_some c _ _ hd, Csv.loc_some c _ _ hr,
    Csv.loc_some c _ _ hs, Csv.loc_some c _ _ hk]
  simp only [exceptBind_ok, exceptMap_ok, exceptPure]

lemma leaves_series_eval (c : Csv) (a d r s k : List ℚ)
    (hc : c.cols.lookup "consensus_structured_wall_avg" = some a)
    (hd : c.cols.lookup "decrypt_wall_avg" = some d)
    (hr : c.cols.lookup "reconstruct_wall_avg" = some r)
    (hs : c.cols.lookup "sign_wall_avg" = some s)
    (hk : c.cols.lookup "complete_round_wall_avg" = some k) :
    leaves_series c = Except.ok (a, d, r, s, k) := by
  unfold leaves_series
  rw [Csv.loc_some c _ _ hc, Csv.loc_some c _ _ hd, Csv.loc_some c _ _ hr,
    Csv.loc_some c _ _ hs, Csv.loc_some c _ _ hk]
  simp only [exceptBind_ok, exceptMap_ok, exceptPure]

lemma evolution_bloom_series_eval (c : Csv) (a d r s k : List ℚ)
    (hc : c.cols.lookup "consensus_structured_wall_avg" = some a)
    (hd : c.cols.lookup "decrypt_wall_avg" = some d)
    (hr : c.cols.lookup "reconstruct_wall_avg" = some r)
    (hs : c.cols.lookup "sign_wall_avg" = some s)
    (hk : c.cols.lookup "complete_round_wall_avg" = some k) :
    evolution_bloom_series c = Except.ok (a, d, r, divS s 60, k) := by
  unfold evolution_bloom_series
  rw [Csv.loc_some c _ _ hc, Csv.loc_some c _ _ hd, Csv.loc_some c _ _ hr,
    Csv.loc_some c _ _ hs, Csv.loc_some c _ _ hk]
  simp only [exceptBind_ok, exceptMap_ok, exceptPure]

lemma real_series_eval (c : Csv) (a d r s e k : List ℚ)
    (hc : c.cols.lookup "consensus_structured_wall_avg" = some a)
    (hd : c.cols.lookup "decrypt_wall_avg" = some d)
    (hr : c.cols.lookup "reconstruct_wall_avg" = some r)
    (hs : c.cols.lookup "sign_wall_avg" = some s)
    (he : c.cols.lookup "additional_data_wall_avg" = some e)
    (hk : c.cols.lookup "Complete round_wall_avg" = some k) :
    real_series c = Except.ok
      (divS a 60, divS d 60, divS r 60, divS s 60, divS e 60, divS k 60) := by
  unfold real_series
  rw [Csv.loc_some c _ _ hc, Csv.loc_some c _ _ hd, Csv.loc_some c _ _ hr,
    Csv.loc_some c _ _ hs, Csv.loc_some c _ _ he, Csv.loc_some c _ _ hk]
  simp only [exceptBind_ok, exceptMap_ok, exceptPure]

/-- A successful hosts.py column load forces the capitalised
complete-round column to be present. -/
lemma hosts_series_complete (c : Csv)
    (v : List ℚ × List ℚ × List ℚ × List ℚ × List ℚ)
    (h : hosts_series c = Except.ok v) :
    (c.cols.lookup "Complete round_wall_avg").isSome = true := by
  unfold hosts_series at h
  cases h1 : c.loc "consensus_structured_wall_avg" with
  | error e => rw [h1] at h; simp [exceptBind_error, exceptMap_error] at h
  | ok v1 =>
  rw [h1] at h; simp only [exceptBind_ok] at h
  cases h2 : c.loc "decrypt_wall_avg" with
  | error e => rw [h2] at h; simp [exceptBind_error, exceptMap_error] at h
  | ok v2 =>
  rw [h2] at h; simp only [exceptBind_ok] at h
  cases h3 : c.loc "reconstruct_wall_avg" with
  | error e => rw [h3] at h; simp [exceptBind_error, exceptMap_error] at h
  | ok v3 =>
  rw [h3] at h; simp only [exceptBind_ok] at h
  cases h4 : c.loc "sign_wall_avg" with
  | error e => rw [h4] at h; simp [exceptBind_error, exceptMap_error] at h
  | ok v4 =>
  rw [h4] at h; simp only [exceptBind_ok] at h
  cases h5 : c.loc "Complete round_wall_avg" with
  | error e => rw [h5] at h; simp [exceptBind_error, exceptMap_error] at h
  | ok v5 =>
  rw [Csv.loc_ok_lookup c _ v5 h5]; rfl

/-- A successful hosts_evolution.py column load forces the capitalised
complete-round column to be present. -/
lemma hosts_evolution_series_complete (c : Csv)
    (v : List ℚ × List ℚ × List ℚ × List ℚ × List ℚ)
    (h : hosts_evolution_series c = Except.ok v) :
    (c.cols.lookup "Complete round_wall_avg").isSome = true := by
  unfold hosts_evolution_series at h
  cases h1 : c.loc "consensus_structured_wall_avg" with
  | error e => rw [h1] at h; simp [exceptBind_error, exceptMap_error] at h
  | ok v1 =>
  rw [h1] at h; simp only [exceptBind_ok] at h
  cases h2 : c.loc "decrypt_wall_avg" with
  | error e => rw [h2] at h; simp [exceptBind_error, exceptMap_error] at h
  | ok v2 =>
  rw [h2] at h; simp only [exceptBind_ok] at h
  cases h3 : c.loc "reconstruct_wall_avg" with
  | error e => rw [h3] at h; simp [exceptBind_error, exceptMap_error] at h
  | ok v3 =>
  rw [h3] at h; simp only [exceptBind_ok] at h
  cases h4 : c.loc "sign_wall_avg" with
  | error e => rw [h4] at h; simp [exceptBind_error, exceptMap_error] at h
  | ok v4 =>
  rw [h4] at h; simp only [exceptBind_ok] at h
  cases h5 : c.loc "Complete round_wall_avg" with
  | error e => rw [h5] at h; simp [exceptBind_error, exceptMap_error] at h
  | ok v5 =>
  rw [Csv.loc_ok_lookup c _ v5 h5]; rfl

/-- A successful real.py column load forces the capitalised complete-round
column to be present. -/
lemma real_series_complete (c : Csv)
    (v : List ℚ × List ℚ × List ℚ × List ℚ × List ℚ × List ℚ)
    (h : real_series c = Except.ok v) :
    (c.cols.lookup "Complete round_wall_avg").isSome = true := by
  unfold real_series at h
  cases h1 : c.loc "consensus_structured_wall_avg" with
  | error e => rw [h1] at h; simp [exceptBind_error, exceptMap_error] at h
  | ok v1 =>
  rw [h1] at h; simp only [exceptBind_ok] at h
  cases h2 : c.loc "decrypt_wall_avg" with
  | error e => rw [h2] at h; simp [exceptBind_error, exceptMap_error] at h
  | ok v2 =>
  rw [h2] at h; simp only [exceptBind_ok] at h
  cases h3 : c.loc "reconstruct_wall_avg" with
  | error e => rw [h3] at h; simp [exceptBind_error, exceptMap_error] at h
  | ok v3 =>
  rw [h3] at h; simp only [exceptBind_ok] at h
  cases h4 : c.loc "sign_wall_avg" with
  | error e => rw [h4] at h; simp [exceptBind_error, exceptMap_error] at h
  | ok v4 =>
  rw [h4] at h; simp only [exceptBind_ok] at h
  cases h5 : c.loc "additional_data_wall_avg" with
  | error e => rw [h5] at h; simp [exceptBind_error, exceptMap_error] at h
  | ok v5 =>
  rw [h5] at h; simp only [exceptBind_ok] at h
  cases h6 : c.loc "Complete round_wall_avg" with
  | error e => rw [h6] at h; simp [exceptBind_error, exceptMap_error] at h
  | ok v6 =>
  rw [Csv.loc_ok_lookup c _ v6 h6]; rfl

/-- A successful leaves.py column load forces the lower-case complete-round
column to be present. -/
lemma leaves_series_complete (c : Csv)
    (v : List ℚ × List ℚ × List ℚ × List ℚ × List ℚ)
    (h : leaves_series c = Except.ok v) :
    (c.cols.lookup "complete_round_wall_avg").isSome = true := by
  unfold leaves_series at h
  cases h1 : c.loc "consensus_structured_wall_avg" with
  | error e => rw [h1] at h; simp [exceptBind_error, exceptMap_error] at h
  | ok v1 =>
  rw [h1] at h; simp only [exceptBind_ok] at h
  cases h2 : c.loc "decrypt_wall_avg" with
  | error e => rw [h2] at h; simp [exceptBind_error, exceptMap_error] at h
  | ok v2 =>
  rw [h2] at h; simp only [exceptBind_ok] at h
  cases h3 : c.loc "reconstruct_wall_avg" with
  | error e => rw [h3] at h; simp [exceptBind_error, exceptMap_error] at h
  | ok v3 =>
  rw [h3] at h; simp only [exceptBind_ok] at h
  cases h4 : c.loc "sign_wall_avg" with
  | error e => rw [h4] at h; simp [exceptBind_error, exceptMap_error] at h
  | ok v4 =>
  rw [h4] at h; simp only [exceptBind_ok] at h
  cases h5 : c.loc "complete_round_wall_avg" with
  | error e => rw [h5] at h; simp [exceptBind_error, exceptMap_error] at h
  | ok v5 =>
  rw [Csv.loc_ok_lookup c _ v5 h5]; rfl

/-- A successful evolution_bloom.py column load forces the lower-case
complete-round column to be present. -/
lemma evolution_bloom_series_complete (c : Csv)
    (v : List ℚ × List ℚ × List ℚ × List ℚ × List ℚ)
    (h : evolution_bloom_series c = Except.ok v) :
    (c.cols.lookup "complete_round_wall_avg").isSome = true := by
  unfold evolution_bloom_series at h
  cases h1 : c.loc "consensus_structured_wall_avg" with
  | error e => rw [h1] at h; simp [exceptBind_error, exceptMap_error] at h
  | ok v1 =>
  rw [h1] at h; simp only [exceptBind_ok] at h
  cases h2 : c.loc "decrypt_wall_avg" with
  | error e => rw [h2] at h; simp [exceptBind_error, exceptMap_error] at h
  | ok v2 =>
  rw [h2] at h; simp only [exceptBind_ok] at h
  cases h3 : c.loc "reconstruct_wall_avg" with
  | error e => rw [h3] at h; simp [exceptBind_error, exceptMap_error] at h
  | ok v3 =>
  rw [h3] at h; simp only [exceptBind_ok] at h
  cases h4 : c.loc "sign_wall_avg" with
  | error e => rw [h4] at h; simp [exceptBind_error, exceptMap_error] at h
  | ok v4 =>
  rw [h4] at h; simp only [exceptBind_ok] at h
  cases h5 : c.loc "complete_round_wall_avg" with
  | error e => rw [h5] at h; simp [exceptBind_error, exceptMap_error] at h
  | ok v5 =>
  rw [Csv.loc_ok_lookup c _ v5 h5]; rfl

/-! ## C6: the complete-round column name varies across scripts -/

/-- C6: hosts.py requires the column "Complete round_wall_avg" while
leaves.py requires "complete_round_wall_avg", and the two strings differ;
any CSV accepted by both scripts must therefore contain both spellings, so
no single complete-round column name satisfies all CSV-reading scripts.
hosts_evolution.py and real.py side with hosts.py (capitalised),
evolution_bloom.py with leaves.py (lower-case). -/
theorem C6_column_mismatch (c : Csv) (argv : List String)
    (st1 st4 : FinalState)
    (h1 : hosts_py argv (some c) = Outcome.finished st1)
    (h4 : leaves_py argv (some c) = Outcome.finished st4) :
    (c.cols.lookup "Complete round_wall_avg").isSome = true ∧
    (c.cols.lookup "complete_round_wall_avg").isSome = true ∧
    "Complete round_wall_avg" ≠ "complete_round_wall_avg" ∧
    (∀ (c' : Csv) (argv' : List String) (st : FinalState),
      hosts_evolution_py argv' (some c') = Outcome.finished st →
      (c'.cols.lookup "Complete round_wall_avg").isSome = true) ∧
    (∀ (c' : Csv) (argv' : List String) (st : FinalState),
      real_py argv' (some c') = Outcome.finished st →
      (c'.cols.lookup "Complete round_wall_avg").isSome = true) ∧
    (∀ (c' : Csv) (argv' : List String) (st : FinalState),
      evolution_bloom_py argv' (some c') = Outcome.finished st →
      (c'.cols.lookup "complete_round_wall_avg").isSome = true) := by
  obtain ⟨-, data1, v1, hd1, hv1, -⟩ :=
    csvScript_finished hosts_series hosts_state argv (some c) st1 h1
  obtain ⟨-, data4, v4, hd4, hv4, -⟩ :=
    csvScript_finished leaves_series leaves_state argv (some c) st4 h4
  obtain rfl : c = data1 := by injection hd1
  obtain rfl : c = data4 := by injection hd4
  refine ⟨hosts_series_complete c v1 hv1, leaves_series_complete c v4 hv4,
    by decide, ?_, ?_, ?_⟩
  · intro c' argv' st hst
    obtain ⟨-, data, v, hd, hv, -⟩ := csvScript_finished hosts_evolution_series
      hosts_evolution_state argv' (some c') st hst
    obtain rfl : c' = data := by injection hd
    exact hosts_evolution_series_complete c' v hv
  · intro c' argv' st hst
    obtain ⟨-, data, v, hd, hv, -⟩ :=
      csvScript_finished real_series real_state argv' (some c') st hst
    obtain rfl : c' = data := by injection hd
    exact real_series_complete c' v hv
  · intro c' argv' st hst
    obtain ⟨-, data, v, hd, hv, -⟩ := csvScript_finished evolution_bloom_series
      evolution_bloom_state argv' (some c') st hst
    obtain rfl : c' = data := by injection hd
    exact evolution_bloom_series_complete c' v hv

/-- Witness for C6_column_mismatch: the sample CSV carries both spellings
and is accepted by hosts.py and leaves.py alike. -/
theorem C6_witness :
    (sampleCsv.cols.lookup "Complete round_wall_avg").isSome = true ∧
    (sampleCsv.cols.lookup "complete_round_wall_avg").isSome = true ∧
    "Complete round_wall_avg" ≠ "complete_round_wall_avg" ∧
    (∀ (c' : Csv) (argv' : List String) (st : FinalState),
      hosts_evolution_py argv' (some c') = Outcome.finished st →
      (c'.cols.lookup "Complete round_wall_avg").isSome = true) ∧
    (∀ (c' : Csv) (argv' : List String) (st : FinalState),
      real_py argv' (some c') = Outcome.finished st →
      (c'.cols.lookup "Complete round_wall_avg").isSome = true) ∧
    (∀ (c' : Csv) (argv' : List String) (st : FinalState),
      evolution_bloom_py argv' (some c') = Outcome.finished st →
      (c'.cols.lookup "complete_round_wall_avg").isSome = true) :=
  C6_column_mismatch sampleCsv ["script", "f"]
    (hosts_state ([1], [2], [3], [4], [10]))
    (leaves_state ([1], [2], [3], [4], [11])) rfl rfl

/-! ## C10: inconsistent unit conversion -/

/-- C10: evolution_bloom.py divides only the sign column by 60 (its
Signature series) while plotting Consensus/Decrypt/Reconstruct raw on the
axis labelled Time[s]; real.py divides every phase column by 60 (axis
Time [m]); hosts.py divides none (axis Time [s]). -/
theorem C10_unit_conversion (argv : List String) (h2 : argv.length = 2)
    (c1 c2 c3 : Csv)
    (a1 d1 r1 s1 k1 : List ℚ)
    (hc1 : c1.cols.lookup "consensus_structured_wall_avg" = some a1)
    (hd1 : c1.cols.lookup "decrypt_wall_avg" = some d1)
    (hr1 : c1.cols.lookup "reconstruct_wall_avg" = some r1)
    (hs1 : c1.cols.lookup "sign_wall_avg" = some s1)
    (hk1 : c1.cols.lookup "complete_round_wall_avg" = some k1)
    (a2 d2 r2 s2 e2 k2 : List ℚ)
    (hc2 : c2.cols.lookup "consensus_structured_wall_avg" = some a2)
    (hd2 : c2.cols.lookup "decrypt_wall_avg" = some d2)
    (hr2 : c2.cols.lookup "reconstruct_wall_avg" = some r2)
    (hs2 : c2.cols.lookup "sign_wall_avg" = some s2)
    (he2 : c2.cols.lookup "additional_data_wall_avg" = some e2)
    (hk2 : c2.cols.lookup "Complete round_wall_avg" = some k2)
    (a3 d3 r3 s3 k3 : List ℚ)
    (hc3 : c3.cols.lookup "consensus_structured_wall_avg" = some a3)
    (hd3 : c3.cols.lookup "decrypt_wall_avg" = some d3)
    (hr3 : c3.cols.lookup "reconstruct_wall_avg" = some r3)
    (hs3 : c3.cols.lookup "sign_wall_avg" = some s3)
    (hk3 : c3.cols.lookup "Complete round_wall_avg" = some k3) :
    (∃ st, evolution_bloom_py argv (some c1) = Outcome.finished st ∧
      st.plotted.lookup "Signature" = some (divS s1 60) ∧
      st.plotted.lookup "Consensus structured" = some a1 ∧
      st.plotted.lookup "Decrypt" = some d1 ∧
      st.plotted.lookup "Reconstruct" = some r1 ∧
      st.ylabel = "Time[s]") ∧
    (∃ st, real_py argv (some c2) = Outcome.finished st ∧
      st.plotted.lookup "Consensus structured" = some (divS a2 60) ∧
      st.plotted.lookup "Decrypt" = some (divS d2 60) ∧
      st.plotted.lookup "Reconstruct" = some (divS r2 60) ∧
      st.plotted.lookup "Signature" = some (divS s2 60) ∧
      st.plotted.lookup "Additional" = some (divS e2 60) ∧
      st.ylabel = "Time [m]") ∧
    (∃ st, hosts_py argv (some c3) = Outcome.finished st ∧
      st.plotted.lookup "Consensus structured" = some a3 ∧
      st.plotted.lookup "Decrypt" = some d3 ∧
      st.plotted.lookup "Reconstruct" = some r3 ∧
      st.plotted.lookup "Signature" = some s3 ∧
      st.ylabel = "Time [s]") := by
  refine ⟨⟨evolution_bloom_state (a1, d1, r1, divS s1 60, k1),
      csvScript_ok evolution_bloom_series evolution_bloom_state argv h2 c1 _
        (evolution_bloom_series_eval c1 a1 d1 r1 s1 k1 hc1 hd1 hr1 hs1 hk1),
      ?_, ?_, ?_, ?_, rfl⟩,
    ⟨real_state (divS a2 60, divS d2 60, divS r2 60, divS s2 60, divS e2 60,
        divS k2 60),
      csvScript_ok real_series real_state argv h2 c2 _
        (real_series_eval c2 a2 d2 r2 s2 e2 k2 hc2 hd2 hr2 hs2 he2 hk2),
      ?_, ?_, ?_, ?_, ?_, rfl⟩,
    ⟨hosts_state (a3, d3, r3, s3, k3),
      csvScript_ok hosts_series hosts_state argv h2 c3 _
        (hosts_series_eval c3 a3 d3 r3 s3 k3 hc3 hd3 hr3 hs3 hk3),
      ?_, ?_, ?_, ?_, rfl⟩⟩ <;>
  simp [evolution_bloom_state, real_state, hosts_state, List.lookup]

/-- Witness for C10_unit_conversion: all three scripts on the sample CSV. -/
theorem C10_witness :
    (∃ st, evolution_bloom_py ["script", "f"] (some sampleCsv) =
        Outcome.finished st ∧
      st.plotted.lookup "Signature" = some (divS [4] 60) ∧
      st.plotted.lookup "Consensus structured" = some [1] ∧
      st.plotted.lookup "Decrypt" = some [2] ∧
      st.plotted.lookup "Reconstruct" = some [3] ∧
      st.ylabel = "Time[s]") ∧
    (∃ st, real_py ["script", "f"] (some sampleCsv) = Outcome.finished st ∧
      st.plotted.lookup "Consensus structured" = some (divS [1] 60) ∧
      st.plotted.lookup "Decrypt" = some (divS [2] 60) ∧
      st.plotted.lookup "Reconstruct" = some (divS [3] 60) ∧
      st.plotted.lookup "Signature" = some (divS [4] 60) ∧
      st.plotted.lookup "Additional" = some (divS [5] 60) ∧
      st.ylabel = "Time [m]") ∧
    (∃ st, hosts_py ["script", "f"] (some sampleCsv) = Outcome.finished st ∧
      st.plotted.lookup "Consensus structured" = some [1] ∧
      st.plotted.lookup "Decrypt" = some [2] ∧
      st.plotted.lookup "Reconstruct" = some [3] ∧
      st.plotted.lookup "Signature" = some [4] ∧
      st.ylabel = "Time [s]") :=
  C10_unit_conversion ["script", "f"] rfl sampleCsv sampleCsv sampleCsv
    [1] [2] [3] [4] [11] rfl rfl rfl rfl rfl
    [1] [2] [3] [4] [5] [10] rfl rfl rfl rfl rfl rfl
    [1] [2] [3] [4] [10] rfl rfl rfl rfl rfl

/-! ## C7: the CDF plotted by alexa.py -/

/-- C7 is false as stated: on the one-element input [5] the plotted curve
is [(5, 0)], so the cumulative probability paired with the maximum value
is 0, not 1 — np.arange(n)/float(n) tops out at (n-1)/n. -/
theorem C7_counterexample :
    curveOf (alexa_py ["alexa.py", "f"] (some [(5 : ℚ)])) = [(5, 0)] ∧
    ((0 : ℚ) ≠ 1) := by
  have hms : ([(5 : ℚ)]).mergeSort = [(5 : ℚ)] :=
    List.mergeSort_eq_self (List.sorted_singleton 5)
  refine ⟨?_, by norm_num⟩
  show (alexa_state [(5 : ℚ)]).curve = [(5, 0)]
  have hr1 : List.range 1 = [0] := rfl
  simp [alexa_state, hms, hr1]

/-- C7 (amended): on every non-empty input of length n, alexa.py plots the
input values sorted nondecreasingly (a permutation of the input) against
the nondecreasing cumulative levels 0/n, 1/n, ..., (n-1)/n; the level
paired with the maximum is (n-1)/n, which is strictly below 1 (the claim
said the curve reaches 1 there). -/
theorem C7_amended (data : List ℚ) (hne : data ≠ []) (argv : List String)
    (st : FinalState) (hr : alexa_py argv (some data) = Outcome.finished st) :
    (st.curve.map Prod.fst).Perm data ∧
    List.Sorted (· ≤ ·) (st.curve.map Prod.fst) ∧
    st.curve.map Prod.snd =
      (List.range data.length).map (fun i : ℕ => (i : ℚ) / (data.length : ℚ)) ∧
    List.Sorted (· ≤ ·) (st.curve.map Prod.snd) ∧
    (st.curve.map Prod.snd).getLast? =
      some (((data.length - 1 : ℕ) : ℚ) / (data.length : ℚ)) ∧
    ((data.length - 1 : ℕ) : ℚ) / (data.length : ℚ) < 1 := by
  obtain ⟨-, d, hd, rfl⟩ := alexa_finished argv (some data) st hr
  obtain rfl : data = d := by injection hd
  have hnpos : 0 < data.length := List.length_pos.mpr hne
  have hqpos : (0 : ℚ) < (data.length : ℚ) := by exact_mod_cast hnpos
  have hlen : data.mergeSort.length = data.length := List.length_mergeSort data
  have hylen : ((List.range data.length).map
      (fun i : ℕ => (i : ℚ) / (data.length : ℚ))).length = data.length := by simp
  have hcurve : (alexa_state data).curve = data.mergeSort.zip
      ((List.range data.length).map (fun i : ℕ => (i : ℚ) / (data.length : ℚ))) :=
    rfl
  have hx : (alexa_state data).curve.map Prod.fst = data.mergeSort := by
    rw [hcurve]; exact List.map_fst_zip _ _ (by rw [hlen, hylen])
  have hy : (alexa_state data).curve.map Prod.snd =
      (List.range data.length).map (fun i : ℕ => (i : ℚ) / (data.length : ℚ)) := by
    rw [hcurve]; exact List.map_snd_zip _ _ (by rw [hlen, hylen])
  obtain ⟨m, hm⟩ : ∃ m, data.length = m + 1 := ⟨data.length - 1, by omega⟩
  refine ⟨?_, ?_, hy, ?_, ?_, ?_⟩
  · rw [hx]; exact List.mergeSort_perm data _
  · rw [hx]; exact List.sorted_mergeSort' data
  · rw [hy]
    refine List.Pairwise.map _ ?_ (List.sorted_lt_range data.length)
    intro a b hab
    have hab' : (a : ℚ) ≤ (b : ℚ) := by exact_mod_cast hab.le
    exact (div_le_div_iff_of_pos_right hqpos).mpr hab'
  · rw [hy, hm, List.range_succ, List.map_append]
    simp only [List.map_cons, List.map_nil]
    rw [List.getLast?_concat]
    have : ((m + 1 - 1 : ℕ) : ℚ) = (m : ℚ) := by norm_num
    rw [this]
  · rw [hm]
    have : ((m + 1 - 1 : ℕ) : ℚ) = (m : ℚ) := by norm_num
    rw [this, div_lt_one (by exact_mod_cast Nat.succ_pos m)]
    push_cast
    linarith

/-- Witness for C7_amended: alexa.py on the input [5]. -/
theorem C7_witness :
    (((alexa_state [(5 : ℚ)]).curve.map Prod.fst).Perm [(5 : ℚ)]) ∧
    List.Sorted (· ≤ ·) ((alexa_state [(5 : ℚ)]).curve.map Prod.fst) ∧
    (alexa_state [(5 : ℚ)]).curve.map Prod.snd =
      (List.range ([(5 : ℚ)]).length).map
        (fun i : ℕ => (i : ℚ) / (([(5 : ℚ)]).length : ℚ)) ∧
    List.Sorted (· ≤ ·) ((alexa_state [(5 : ℚ)]).curve.map Prod.snd) ∧
    ((alexa_state [(5 : ℚ)]).curve.map Prod.snd).getLast? =
      some (((([(5 : ℚ)]).length - 1 : ℕ) : ℚ) / (([(5 : ℚ)]).length : ℚ)) ∧
    ((([(5 : ℚ)]).length - 1 : ℕ) : ℚ) / (([(5 : ℚ)]).length : ℚ) < 1 :=
  C7_amended [(5 : ℚ)] (by simp) ["alexa.py", "f"] (alexa_state [(5 : ℚ)]) rfl

/-! ## C8: the Total series of hosts_evolution.py -/

lemma addS_cons (a b : ℚ) (l m : List ℚ) :
    addS (a :: l) (b :: m) = (a + b) :: addS l m := rfl

/-- Pointwise cancellation: with aligned lengths, consensus + decrypt +
sign + consensus agrees with consensus + decrypt + reconstruct + sign
exactly when the consensus and reconstruct series coincide. -/
lemma addS_cancel (cs ds rs ss : List ℚ)
    (hd : ds.length = cs.length) (hr : rs.length = cs.length)
    (hs : ss.length = cs.length) :
    (addS (addS (addS cs ds) ss) cs = addS (addS (addS cs ds) rs) ss) ↔
      cs = rs := by
  induction cs generalizing ds rs ss with
  | nil =>
    obtain rfl := List.length_eq_zero.mp hd
    obtain rfl := List.length_eq_zero.mp hr
    obtain rfl := List.length_eq_zero.mp hs
    simp [addS]
  | cons c ct ih =>
    cases ds with
    | nil => simp at hd
    | cons d dt =>
    cases rs with
    | nil => simp at hr
    | cons r rt =>
    cases ss with
    | nil => simp at hs
    | cons s st =>
    have hd' : dt.length = ct.length := by simpa using hd
    have hr' : rt.length = ct.length := by simpa using hr
    have hs' : st.length = ct.length := by simpa using hs
    simp only [addS_cons, List.cons.injEq]
    rw [ih dt rt st hd' hr' hs']
    exact and_congr_left' ⟨fun h5 => by linarith, fun h5 => by rw [h5]; ring⟩

/-- A CSV on which hosts_evolution.py finishes and on which the Total
series happens to coincide with the sum of the four plotted phases
(consensus = reconstruct there). -/
def uniCsv : Csv :=
  ⟨[("consensus_structured_wall_avg", [1]), ("decrypt_wall_avg", [1]),
    ("reconstruct_wall_avg", [1]), ("sign_wall_avg", [1]),
    ("Complete round_wall_avg", [1])]⟩

/-- C8 is false as stated: on an accepted CSV whose consensus and
reconstruct columns coincide, the Total series of hosts_evolution.py
equals the element-wise sum of the four plotted phase series, so the
claimed inequality does not hold for every accepted input. -/
theorem C8_counterexample :
    seriesOf (hosts_evolution_py ["hosts_evolution.py", "f"] (some uniCsv))
        "Total" =
      phaseSum (hosts_evolution_py ["hosts_evolution.py", "f"] (some uniCsv)) ∧
    seriesOf (hosts_evolution_py ["hosts_evolution.py", "f"] (some uniCsv))
        "Total" = some [(4 : ℚ)] := by
  have hrun : hosts_evolution_py ["hosts_evolution.py", "f"] (some uniCsv) =
      Outcome.finished (hosts_evolution_state ([1], [1], [1], [1], [1])) := rfl
  rw [hrun]
  constructor
  · simp [seriesOf, phaseSum, hosts_evolution_state, List.lookup]
  · have hb1 : ("Total" == "Consensus structured") = false := rfl
    have hb2 : ("Total" == "Decrypt") = false := rfl
    have hb3 : ("Total" == "Reconstruct") = false := rfl
    have hb4 : ("Total" == "Signature") = false := rfl
    norm_num [seriesOf, hosts_evolution_state, List.lookup, addS,
      hb1, hb2, hb3, hb4]

/-- C8 (amended): the Total series of hosts_evolution.py is
consensus + decrypt + sign + consensus (consensus twice, reconstruct
omitted), while leaves.py plots consensus + decrypt + reconstruct + sign;
with aligned column lengths the hosts_evolution Total coincides with the
sum of its four plotted phases exactly when the consensus and reconstruct
columns are equal — in particular it differs whenever they differ. -/
theorem C8_total_series (c c2 : Csv) (argv argv2 : List String)
    (st st2 : FinalState)
    (cs ds rs ss ks cs2 ds2 rs2 ss2 ks2 : List ℚ)
    (h : hosts_evolution_py argv (some c) = Outcome.finished st)
    (hse : hosts_evolution_series c = Except.ok (cs, ds, rs, ss, ks))
    (h2 : leaves_py argv2 (some c2) = Outcome.finished st2)
    (hse2 : leaves_series c2 = Except.ok (cs2, ds2, rs2, ss2, ks2)) :
    st.plotted.lookup "Total" = some (addS (addS (addS cs ds) ss) cs) ∧
    st2.plotted.lookup "Total" = some (addS (addS (addS cs2 ds2) rs2) ss2) ∧
    (ds.length = cs.length → rs.length = cs.length → ss.length = cs.length →
      (st.plotted.lookup "Total" = some (addS (addS (addS cs ds) rs) ss) ↔
        cs = rs)) := by
  obtain ⟨-, data, v, hd, hv, rfl⟩ := csvScript_finished hosts_evolution_series
    hosts_evolution_state argv (some c) st h
  obtain rfl : c = data := by injection hd
  rw [hv] at hse
  obtain rfl : v = (cs, ds, rs, ss, ks) := by injection hse
  obtain ⟨-, data2, v2, hd2, hv2, rfl⟩ := csvScript_finished leaves_series
    leaves_state argv2 (some c2) st2 h2
  obtain rfl : c2 = data2 := by injection hd2
  rw [hv2] at hse2
  obtain rfl : v2 = (cs2, ds2, rs2, ss2, ks2) := by injection hse2
  have hlook : (hosts_evolution_state (cs, ds, rs, ss, ks)).plotted.lookup
      "Total" = some (addS (addS (addS cs ds) ss) cs) := by
    simp [hosts_evolution_state, List.lookup]
  have hlook2 : (leaves_state (cs2, ds2, rs2, ss2, ks2)).plotted.lookup
      "Total" = some (addS (addS (addS cs2 ds2) rs2) ss2) := by
    simp [leaves_state, List.lookup]
  refine ⟨hlook, hlook2, fun hld hlr hls => ?_⟩
  rw [hlook, Option.some_inj]
  exact addS_cancel cs ds rs ss hld hlr hls

/-- Witness for C8_total_series: hosts_evolution.py and leaves.py on the
sample CSV, whose consensus and reconstruct columns differ. -/
theorem C8_witness :
    (hosts_evolution_state
        ([1], [2], [3], [4], [10])).plotted.lookup "Total" =
      some (addS (addS (addS [1] [2]) [4]) [1]) ∧
    (leaves_state ([1], [2], [3], [4], [11])).plotted.lookup "Total" =
      some (addS (addS (addS [1] [2]) [3]) [4]) ∧
    (([2] : List ℚ).length = ([1] : List ℚ).length →
      ([3] : List ℚ).length = ([1] : List ℚ).length →
      ([4] : List ℚ).length = ([1] : List ℚ).length →
      ((hosts_evolution_state
          ([1], [2], [3], [4], [10])).plotted.lookup "Total" =
        some (addS (addS (addS [1] [2]) [3]) [4]) ↔
        ([1] : List ℚ) = [3])) :=
  C8_total_series sampleCsv sampleCsv ["a", "f"] ["b", "f"] _ _
    [1] [2] [3] [4] [10] [1] [2] [3] [4] [11] rfl rfl rfl rfl

end Decenar
